import Mathlib

/-!
Shallow embedding of the Uniswap calibrator quote pipeline and
arbiter-configuration engine, translated from the TypeScript sources:

* `src/services/quote/QuoteConfigurationService.ts` — compact-id packing,
  witness-type-string parsing, EIP-712 type/struct hashing, configuration
  assembly (`generateConfiguration`, `calculateId`, `generateWitnessHash`,
  `deriveMandateHash`);
* `src/config/arbiters.ts` — the arbiter registry and the mandate
  resolver template;
* `src/routes/quote.ts` — the POST /quote handler logic downstream of
  the price service (output-amount fallback, wire serialization);
* `src/services/price/QuoteService.ts` — the spot-price computation;
* the cross-chain net-quote adjustment of the unnamed QuoteService
  variant (`src/unnamed/part_019`).

Modelling conventions:

* JavaScript `bigint` values are `Nat` (the spec fixes all amounts and
  prices as 256-bit unsigned integers; every arithmetic operation used by
  the sources on these values is non-negative-preserving in the regions
  the theorems cover).  `bigint` division truncates, which on non-negative
  operands is exactly `Nat` floor division.
* Addresses, salts and other `0x…` payloads are carried as the hex
  `String` the TypeScript carries, and converted to their numeric value
  by `hexToNat` exactly where `viem`'s ABI encoder parses them.
* keccak256 is kept as an explicit function parameter of type
  `Hash = List Nat → Nat` (bytes in, 256-bit word out).  All hashing
  claims are structural (equality or inequality of the byte strings fed
  to keccak), so they are stated for every `Hash`, and refuted by
  exhibiting a concrete `Hash`.
* `null`-able values are `Option`; JavaScript truthiness on the decimal
  strings carried by the pipeline coincides with presence (the strings
  are non-empty), except where a numeric `0` is falsy, which is modelled
  explicitly (`effectiveSlippageBips`).
* JS string `split`/`trim` on the ASCII strings involved is modelled
  character-exactly over `List Char`.
-/

set_option maxRecDepth 40000

namespace Calibrator

/-- A 256-bit hash function over byte strings, kept as a parameter: the
claims under study only require that both sides feed keccak the same
bytes (or provably different bytes). -/
abbrev Hash := List Nat → Nat

/-- A concrete member of `Hash` (byte-string length) used to witness
that two hash computations read different byte strings. -/
def lengthHash : Hash := List.length

/-- JS `String.prototype.split(sep)` with a one-character separator,
over char lists: returns the segments between occurrences of `c`,
including empty segments (n separators yield n+1 segments). -/
def splitOnChar (c : Char) : List Char → List (List Char)
  | [] => [[]]
  | x :: xs =>
    if x = c then [] :: splitOnChar c xs
    else
      match splitOnChar c xs with
      | [] => [[x]]
      | s :: rest => (x :: s) :: rest

/-- Separator-joined concatenation, inverse of `splitOnChar` on
separator-free segments. -/
def joinSep (c : Char) : List (List Char) → List Char
  | [] => []
  | [x] => x
  | x :: y :: rest => x ++ c :: joinSep c (y :: rest)

/-- The whitespace class trimmed by JS `String.prototype.trim` (only the
ASCII members that can occur in witness type strings). -/
def isJsSpace (c : Char) : Bool :=
  c == ' ' || c == '\t' || c == '\n' || c == '\r'

/-- JS `String.prototype.trim` over char lists. -/
def trimChars (l : List Char) : List Char :=
  ((l.dropWhile isJsSpace).reverse.dropWhile isJsSpace).reverse

/-- The regex word class `\w` = `[A-Za-z0-9_]`. -/
def isWordChar (c : Char) : Bool :=
  c.isAlphanum || c == '_'

/-- UTF-8 bytes of an ASCII string (for ASCII, code points and UTF-8
bytes coincide; every string hashed by the service is ASCII). -/
def strBytes (s : String) : List Nat :=
  s.data.map Char.toNat

/-- Value of one hex digit (viem parses `0x…` strings
case-insensitively, which this captures). -/
def hexCharVal (c : Char) : Nat :=
  if '0' ≤ c ∧ c ≤ '9' then c.toNat - '0'.toNat
  else if 'a' ≤ c ∧ c ≤ 'f' then c.toNat - 'a'.toNat + 10
  else if 'A' ≤ c ∧ c ≤ 'F' then c.toNat - 'A'.toNat + 10
  else 0

/-- Numeric value of a `0x…` hex string, as parsed by `BigInt(hex)` and
by viem's ABI encoder.  Lower-casing an address (as `deriveMandateHash`
does) never changes this value. -/
def hexToNat (s : String) : Nat :=
  (s.data.drop 2).foldl (fun acc c => acc * 16 + hexCharVal c) 0

/-- Big-endian 32-byte encoding of a 256-bit word, the ABI encoding of
one static value (`uint256`, `address`, `bytes32`, …). -/
def wordBytes (n : Nat) : List Nat :=
  (List.range 32).map (fun i => n / 2 ^ (8 * (31 - i)) % 256)

/-- `encodeAbiParameters` for a tuple of static one-word types: the
concatenation of the 32-byte encodings.  Every witness type used by the
registry (`uint256`, `address`, `bytes32`) is static. -/
def encodeWords (ws : List Nat) : List Nat :=
  ws.flatMap wordBytes

/-- JS `a || b` on two nullable non-empty strings: the left value if
present, otherwise the right. -/
def jsOr {α : Type} (a b : Option α) : Option α :=
  match a with
  | some x => some x
  | none => b

/-!
## CompactIdPacker — `calculateId`
(`QuoteConfigurationService.ts`, lines 112–126)
-/

/-- `calculateId`: packs `(isMultichain, resetPeriod, allocatorId,
inputToken)` into the 256-bit compact id.  Note: the source masks only
the input-token address (`& ((1n << 160n) - 1n)`); `resetPeriod` and
`allocatorId` are shifted unmasked. -/
def calculateId (isMultichain : Bool) (resetPeriod allocatorId inputToken : Nat) : Nat :=
  let multiChainBit : Nat := if isMultichain then 0 else 1
  (multiChainBit <<< 255) ||| (resetPeriod <<< 252) ||| (allocatorId <<< 160) |||
    (inputToken &&& ((1 <<< 160) - 1))

/-!
## WitnessCodec — witness-type-string parsing and EIP-712 hashing
(`QuoteConfigurationService.ts`, lines 132–210 and 212–277)
-/

/-- Result of parsing a witness type string
`"Struct var)Struct(type1 name1,type2 name2,…)"`. -/
structure ParsedWitness where
  structName : List Char
  variableName : List Char
  params : List (List Char × List Char)
  typeDefPiece : List Char

/-- One parameter declaration: `param.trim().split(' ')`, destructured
into its first two pieces; JS falsiness rejects a missing or empty
piece. -/
def parseParam (p : List Char) : Except String (List Char × List Char) :=
  let pieces := splitOnChar ' ' (trimChars p)
  let ty := pieces.getD 0 []
  let nm := pieces.getD 1 []
  if ty.isEmpty ∨ nm.isEmpty then
    Except.error "Invalid witness type string format: invalid parameter declaration"
  else Except.ok (ty, nm)

/-- The parsing stage of `generateWitnessHash`, step for step:
split on `)` and keep the non-empty pieces (exactly two);
destructure the declaration on `' '`; match the definition piece
against `^(\w+)\(` and compare the leading word with the struct name
(the regex `^(\w+)\((.*?)(?:\)|$)` matches exactly when a non-empty
maximal word-character run is followed by `(`, and its first group is
that run); then parse `split('(')[1].split(')')[0].split(',')` into
`{type, name}` pairs. -/
def parseWitnessTypeString (ts : List Char) : Except String ParsedWitness :=
  let parts := splitOnChar ')' ts
  let nonEmptyParts := parts.filter (fun p => p.length > 0)
  match nonEmptyParts with
  | [variableDecl, typeDefPiece] =>
    let declParts := splitOnChar ' ' variableDecl
    let structName := declParts.getD 0 []
    let variableName := declParts.getD 1 []
    if structName.isEmpty ∨ variableName.isEmpty then
      Except.error "Invalid witness type string format: invalid variable declaration"
    else
      let leadWord := typeDefPiece.takeWhile isWordChar
      if leadWord.isEmpty ∨ (typeDefPiece.drop leadWord.length).head? ≠ some '(' then
        Except.error "Invalid witness type string format: struct name mismatch or invalid parameter list"
      else if leadWord ≠ structName then
        Except.error "Invalid witness type string format: struct name mismatch or invalid parameter list"
      else
        let paramSegment := (splitOnChar ')' ((splitOnChar '(' typeDefPiece).getD 1 [])).getD 0 []
        match (splitOnChar ',' paramSegment).mapM parseParam with
        | Except.error e => Except.error e
        | Except.ok params => Except.ok ⟨structName, variableName, params, typeDefPiece⟩
  | _ => Except.error "Invalid witness type string format: missing variable declaration"

/-- The EIP-712 type hash `generateWitnessHash` computes:
keccak256 of `typeDefinition = typeDefinitionWithoutClosing + ')'`. -/
def witnessTypeHash (keccak : Hash) (p : ParsedWitness) : Nat :=
  keccak ((p.typeDefPiece ++ [')']).map Char.toNat)

/-- `generateWitnessHash`: parse the type string, hash the type
definition, look each declared field name up in the witness data (in
declaration order), ABI-encode `typeHash ‖ values` and hash the result. -/
def generateWitnessHash (keccak : Hash) (ts : List Char)
    (wd : List Char → Option Nat) : Except String Nat := do
  let p ← parseWitnessTypeString ts
  let typeHash := witnessTypeHash keccak p
  let values ← p.params.mapM (fun pr =>
    match wd pr.2 with
    | none => Except.error ("Missing value for parameter: " ++ String.mk pr.2)
    | some v => Except.ok v)
  pure (keccak (encodeWords (typeHash :: values)))

/-- The hard-coded Mandate type string of `deriveMandateHash`. -/
def MANDATE_TYPE_STRING : String :=
  "Mandate(uint256 chainId,address tribunal,address recipient,uint256 expires,address token,uint256 minimumAmount,uint256 baselinePriorityFee,uint256 scalingFactor,bytes32 salt)"

/-- The mandate argument of `deriveMandateHash` (addresses and salt are
the hex strings the TypeScript carries). -/
structure MandateFields where
  recipient : String
  expires : Nat
  token : String
  minimumAmount : Nat
  baselinePriorityFee : Nat
  scalingFactor : Nat
  salt : String

/-- `deriveMandateHash`: keccak256 of the ABI encoding of the hard-coded
Mandate type hash followed by the ten mandate words, exactly as the
on-chain tribunal computes it.  (The source lower-cases the addresses
before encoding; `hexToNat` is case-insensitive, so that normalization
is value-preserving.) -/
def deriveMandateHash (keccak : Hash) (chainId : Nat) (tribunal : String)
    (m : MandateFields) : Nat :=
  let typeHash := keccak (strBytes MANDATE_TYPE_STRING)
  keccak (encodeWords
    [typeHash, chainId, hexToNat tribunal, hexToNat m.recipient, m.expires,
     hexToNat m.token, m.minimumAmount, m.baselinePriorityFee, m.scalingFactor,
     hexToNat m.salt])

/-- The witness type string carried by every entry of the arbiter
registry (`arbiters.ts`). -/
def registryWitnessTypeString : String :=
  "Mandate mandate)Mandate(uint256 chainId,address tribunal,address recipient,uint256 expires,address token,uint256 minimumAmount,uint256 baselinePriorityFee,uint256 scalingFactor,bytes32 salt)"

/-- The fully evaluated parse of the registry's witness type string. -/
def registryParsedWitness : ParsedWitness :=
  ⟨"Mandate".data, "mandate".data,
   [("uint256".data, "chainId".data), ("address".data, "tribunal".data),
    ("address".data, "recipient".data), ("uint256".data, "expires".data),
    ("address".data, "token".data), ("uint256".data, "minimumAmount".data),
    ("uint256".data, "baselinePriorityFee".data),
    ("uint256".data, "scalingFactor".data), ("bytes32".data, "salt".data)],
   MANDATE_TYPE_STRING.data.dropLast⟩

/-- The witness record built by the registry's `resolverTemplate`. -/
structure WitnessData where
  chainId : Nat
  tribunal : String
  recipient : String
  expires : Nat
  token : String
  minimumAmount : Nat
  baselinePriorityFee : Nat
  scalingFactor : Nat
  salt : String

/-- The witness record viewed as the dictionary `generateWitnessHash`
reads, with each value already converted to the word viem's ABI encoder
produces for it. -/
def witnessDict (w : WitnessData) (name : List Char) : Option Nat :=
  if name = "chainId".data then some w.chainId
  else if name = "tribunal".data then some (hexToNat w.tribunal)
  else if name = "recipient".data then some (hexToNat w.recipient)
  else if name = "expires".data then some w.expires
  else if name = "token".data then some (hexToNat w.token)
  else if name = "minimumAmount".data then some w.minimumAmount
  else if name = "baselinePriorityFee".data then some w.baselinePriorityFee
  else if name = "scalingFactor".data then some w.scalingFactor
  else if name = "salt".data then some (hexToNat w.salt)
  else none

/-!
## Witness-type-string grammar (spec §4.5)

`TypeString = StructName " " VariableName ")" StructName "(" Param ("," Param)* ")"`
with `Param = SolidityType " " FieldName`.  The grammar-side definitions
below exist to compare the parser/hasher against the spec's canonical
constructions.
-/

/-- A non-empty token of regex word characters (`[A-Za-z0-9_]`): the
shape of the struct name, variable name, field names and the solidity
type tokens that occur in the registry's witness strings. -/
def wordAtom (l : List Char) : Prop :=
  l ≠ [] ∧ ∀ c ∈ l, isWordChar c = true

instance decWordAtom (l : List Char) : Decidable (wordAtom l) :=
  inferInstanceAs (Decidable (l ≠ [] ∧ ∀ c ∈ l, isWordChar c = true))

/-- The `"SolidityType FieldName"` parameter declarations. -/
def grammarParamStrings (ps : List (List Char × List Char)) : List (List Char) :=
  ps.map (fun pr => pr.1 ++ ' ' :: pr.2)

/-- A witness type string of the §4.5 grammar, assembled from a struct
name, a variable name and a parameter list. -/
def grammarWitnessString (S v : List Char) (ps : List (List Char × List Char)) : List Char :=
  S ++ ' ' :: v ++ ')' :: S ++ '(' :: joinSep ',' (grammarParamStrings ps) ++ [')']

/-- The canonical struct definition with field names included:
`StructName "(" join(",", "Type SP Name") ")"`. -/
def canonicalWithNames (S : List Char) (ps : List (List Char × List Char)) : List Char :=
  S ++ '(' :: joinSep ',' (grammarParamStrings ps) ++ [')']

/-- The canonical string the spec claims is hashed: struct name and the
comma-joined solidity type strings only, without field names. -/
def canonicalTypesOnly (S : List Char) (ps : List (List Char × List Char)) : List Char :=
  S ++ '(' :: joinSep ',' (ps.map Prod.fst) ++ [')']

/-!
## ArbiterRegistry and resolver (`src/config/arbiters.ts`)
-/

/-- `context.slippageBips || 100`: JS `||` treats the number 0 as falsy,
so an explicit 0 falls back to the default 100. -/
def effectiveSlippageBips (b : Option Nat) : Nat :=
  match b with
  | some b => if b = 0 then 100 else b
  | none => 100

/-- The mandate `minimumAmount` computed by `resolverTemplate`:
`net − (net · slippageBips) / 10000` for a present output amount, `0n`
for a null one. -/
def resolverMinimumAmount (outputAmountNet : Option Nat) (slippageBips : Option Nat) : Nat :=
  match outputAmountNet with
  | none => 0
  | some net => net - net * effectiveSlippageBips slippageBips / 10000

/-- The lock parameters carried by a quote request.  `resetPeriod` is a
JS number that `generateConfiguration` bounds-checks, so it is an `Int`
here; the other fields are parsed from decimal strings. -/
structure LockParameters where
  allocatorId : Nat
  resetPeriod : Int
  isMultichain : Bool

/-- The request context.  All fields optional; `fillExpires` and
`claimExpires` are decimal-second strings on the wire (non-empty, hence
JS-truthy exactly when present). -/
structure QuoteContext where
  slippageBips : Option Nat
  recipient : Option String
  baselinePriorityFee : Option Nat
  scalingFactor : Option Nat
  fillExpires : Option Nat
  claimExpires : Option Nat

/-- The quote record the route hands to the configuration service. -/
structure QuoteForConfig where
  sponsor : String
  inputTokenChainId : Nat
  outputTokenChainId : Nat
  inputTokenAddress : String
  outputTokenAddress : String
  inputTokenAmount : Nat
  outputAmountDirect : Option Nat
  outputAmountNet : Option Nat
  tribunalQuote : Option Nat
  tribunalQuoteUsd : Option Nat

/-- `resolverTemplate` of `src/config/arbiters.ts`: builds the mandate
witness from the quote, the completed context (whose `fillExpires` the
service has already filled in — the source asserts it non-null with
`context.fillExpires!`) and the tribunal address.  The random 32-byte
salt is passed in explicitly. -/
def resolverTemplate (quote : QuoteForConfig) (sponsor : String)
    (context : QuoteContext) (tribunal : String) (salt : String) : WitnessData :=
  { chainId := quote.outputTokenChainId
    tribunal := tribunal
    recipient := (jsOr context.recipient (some sponsor)).getD sponsor
    expires := context.fillExpires.getD 0
    token := quote.outputTokenAddress
    minimumAmount := resolverMinimumAmount quote.outputAmountNet context.slippageBips
    baselinePriorityFee := context.baselinePriorityFee.getD 0
    scalingFactor := context.scalingFactor.getD 1000000000100000000
    salt := salt }

/-- One arbiter registry entry. -/
structure ArbiterEntry where
  address : String
  tribunal : String
  witnessTypeString : String
  resolver : QuoteForConfig → String → QuoteContext → String → WitnessData

/-- All twelve registry entries share the witness type string and the
resolver template, differing only in the two addresses. -/
def mkEntry (addr trib : String) : ArbiterEntry :=
  { address := addr, tribunal := trib
    witnessTypeString := registryWitnessTypeString
    resolver := fun q s c salt => resolverTemplate q s c trib salt }

def addrMainnet : String := "0xDfd41e6E2e08e752f464084F5C11619A3c950237"
def addrOptimism : String := "0x2602D9f66ec17F2dc770063F7B91821DD741F626"
def addrBase : String := "0xfaBE453252ca8337b091ba01BB168030E2FE6c1F"
def addrUnichain : String := "0x81fC1d90C5fae0f15FC91B5592177B594011C576"

/-- The arbiter registry `arbiterMapping`, keyed by
`"{srcChainId}-{dstChainId}"` in the source and by the chain-id pair
here. -/
def arbiterMapping (src dst : Nat) : Option ArbiterEntry :=
  if src = 10 ∧ dst = 8453 then some (mkEntry addrOptimism addrBase)
  else if src = 8453 ∧ dst = 10 then some (mkEntry addrBase addrOptimism)
  else if src = 1 ∧ dst = 10 then some (mkEntry addrMainnet addrOptimism)
  else if src = 10 ∧ dst = 1 then some (mkEntry addrOptimism addrMainnet)
  else if src = 8453 ∧ dst = 1 then some (mkEntry addrBase addrMainnet)
  else if src = 1 ∧ dst = 8453 then some (mkEntry addrMainnet addrBase)
  else if src = 130 ∧ dst = 1 then some (mkEntry addrUnichain addrMainnet)
  else if src = 1 ∧ dst = 130 then some (mkEntry addrMainnet addrUnichain)
  else if src = 130 ∧ dst = 8453 then some (mkEntry addrUnichain addrBase)
  else if src = 8453 ∧ dst = 130 then some (mkEntry addrBase addrUnichain)
  else if src = 130 ∧ dst = 10 then some (mkEntry addrUnichain addrOptimism)
  else if src = 10 ∧ dst = 130 then some (mkEntry addrOptimism addrUnichain)
  else none

/-!
## `generateConfiguration` (`QuoteConfigurationService.ts`, lines 17–110)
-/

/-- The compact payload assembled by `generateConfiguration`.  The
witness is stored under the variable name parsed from the type string
(`witnessKey`), which for the registry string is `"mandate"`. -/
structure CompactData where
  arbiter : String
  tribunal : String
  sponsor : String
  nonce : Option Nat
  expires : Nat
  id : Nat
  amount : Nat
  maximumAmount : Nat
  dispensation : Nat
  witnessKey : List Char
  witness : WitnessData

structure Configuration where
  data : CompactData
  witnessHash : Nat
  dispensation : Nat

/-- `generateConfiguration`, step for step: reset-period bounds check,
registry lookup, id packing, expiry defaulting (`fillExpires ?? now +
duration`, `claimExpires ?? fillExpires + 300`), expiry-order check,
resolver invocation, the inline variable-name parse, witness hashing,
and compact assembly.  `now` (seconds) and the random salt are explicit
parameters. -/
def generateConfiguration (keccak : Hash) (quote : QuoteForConfig) (sponsor : String)
    (duration : Nat) (lockParameters : LockParameters) (context : QuoteContext)
    (now : Nat) (salt : String) : Except String Configuration := do
  if lockParameters.resetPeriod < 0 ∨ 7 < lockParameters.resetPeriod then
    throw "Reset period must be between 0 and 7"
  let some arbiter := arbiterMapping quote.inputTokenChainId quote.outputTokenChainId
    | throw ("No arbiter found for chain pair " ++ toString quote.inputTokenChainId
        ++ "-" ++ toString quote.outputTokenChainId)
  let id := calculateId lockParameters.isMultichain lockParameters.resetPeriod.toNat
    lockParameters.allocatorId (hexToNat quote.inputTokenAddress)
  let fillExpires := context.fillExpires.getD (now + duration)
  let claimExpires := context.claimExpires.getD (fillExpires + 300)
  if claimExpires ≤ fillExpires then
    throw "fillExpires must be before claimExpires"
  let completeContext : QuoteContext :=
    { context with fillExpires := some fillExpires, claimExpires := some claimExpires }
  let witness := arbiter.resolver quote sponsor completeContext salt
  let parts := splitOnChar ')' arbiter.witnessTypeString.data
  let nonEmptyParts := parts.filter (fun p => p.length > 0)
  if nonEmptyParts.length ≠ 2 then
    throw "Invalid witness type string format: missing variable declaration"
  let variableDecl := nonEmptyParts.getD 0 []
  let variableName := (splitOnChar ' ' variableDecl).getD 1 []
  if variableName.isEmpty then
    throw "Invalid witness type string format: invalid variable declaration"
  let witnessHash ← generateWitnessHash keccak arbiter.witnessTypeString.data
    (witnessDict witness)
  pure
    { data :=
      { arbiter := arbiter.address
        tribunal := arbiter.tribunal
        sponsor := sponsor
        nonce := none
        expires := claimExpires
        id := id
        amount := quote.inputTokenAmount
        maximumAmount := quote.outputAmountNet.getD 0
        dispensation := quote.tribunalQuote.getD 0
        witnessKey := variableName
        witness := witness }
      witnessHash := witnessHash
      dispensation := quote.tribunalQuote.getD 0 }

/-- `computedFillExpires`: `context.fillExpires ? BigInt(...) : now +
BigInt(duration)`. -/
def computedFillExpires (context : QuoteContext) (now duration : Nat) : Nat :=
  context.fillExpires.getD (now + duration)

/-- `computedClaimExpires`: `context.claimExpires ? BigInt(...) :
fillExpires + 300n` (five minutes of buffer). -/
def computedClaimExpires (context : QuoteContext) (now duration : Nat) : Nat :=
  context.claimExpires.getD (computedFillExpires context now duration + 300)

/-- The configuration `generateConfiguration` produces on its success
path, written out: the resolver's witness against the completed context,
the packed id, the claim expiry, and the witness hash of
`generateWitnessHash` (which on the registry string agrees with
`deriveMandateHash`). -/
def expectedConfiguration (keccak : Hash) (quote : QuoteForConfig) (sponsor : String)
    (duration : Nat) (lp : LockParameters) (context : QuoteContext) (now : Nat)
    (salt : String) (A T : String) : Configuration :=
  let fe := computedFillExpires context now duration
  let ce := computedClaimExpires context now duration
  let witness := resolverTemplate quote sponsor
    { context with fillExpires := some fe, claimExpires := some ce } T salt
  { data :=
    { arbiter := A
      tribunal := T
      sponsor := sponsor
      nonce := none
      expires := ce
      id := calculateId lp.isMultichain lp.resetPeriod.toNat lp.allocatorId
        (hexToNat quote.inputTokenAddress)
      amount := quote.inputTokenAmount
      maximumAmount := quote.outputAmountNet.getD 0
      dispensation := quote.tribunalQuote.getD 0
      witnessKey := "mandate".data
      witness := witness }
    witnessHash := keccak (encodeWords
      [keccak (strBytes MANDATE_TYPE_STRING), witness.chainId, hexToNat witness.tribunal,
       hexToNat witness.recipient, witness.expires, hexToNat witness.token,
       witness.minimumAmount, witness.baselinePriorityFee, witness.scalingFactor,
       hexToNat witness.salt])
    dispensation := quote.tribunalQuote.getD 0 }

/-!
## The POST /quote handler downstream of the price service
(`src/routes/quote.ts`, lines 90–227)
-/

/-- JSON values as serialized on the wire.  `convertBigIntsToStrings`
turns every `bigint` into its base-10 string; JS numbers, strings and
`null` pass through. -/
inductive Json where
  | null : Json
  | str : String → Json
  | num : Nat → Json
  | obj : List (String × Json) → Json

/-- Field lookup in a serialized JSON object. -/
def jsonLookup (j : Json) (key : String) : Option Json :=
  match j with
  | Json.obj fields => fields.lookup key
  | _ => none

/-- A nullable bigint field serialized by `convertBigIntsToStrings`:
`null` stays `null`, a bigint becomes its decimal string. -/
def optNumStr (v : Option Nat) : Json :=
  match v with
  | none => Json.null
  | some n => Json.str (toString n)

/-- A nullable signed field (the delta) serialized the same way. -/
def optIntStr (v : Option Int) : Json :=
  match v with
  | none => Json.null
  | some n => Json.str (toString n)

/-- Four-digit zero-padded fraction for the dollar display. -/
def pad4 (n : Nat) : String :=
  if n < 10 then "000" ++ toString n
  else if n < 100 then "00" ++ toString n
  else if n < 1000 then "0" ++ toString n
  else toString n

/-- The `"$X.XXXX"` dispensation display:
`$${(Number(BigInt(u)) / 1e18).toFixed(4)}`.  The source computes this
through double-precision floats; this model rounds the exact rational
to four decimals (identical for the magnitudes at play below 2^53). -/
def usdDisplay (u : Nat) : String :=
  let r := (u + 5 * 10 ^ 13) / 10 ^ 14
  "$" ++ toString (r / 10 ^ 4) ++ "." ++ pad4 (r % 10 ^ 4)

/-- The mandate object as serialized in the response:
`chainId` is a JS number and stays a JSON number; the bigint fields
become decimal strings; addresses and salt are already strings. -/
def mandateToJson (w : WitnessData) : Json :=
  Json.obj
    [("chainId", Json.num w.chainId),
     ("tribunal", Json.str w.tribunal),
     ("recipient", Json.str w.recipient),
     ("expires", Json.str (toString w.expires)),
     ("token", Json.str w.token),
     ("minimumAmount", Json.str (toString w.minimumAmount)),
     ("baselinePriorityFee", Json.str (toString w.baselinePriorityFee)),
     ("scalingFactor", Json.str (toString w.scalingFactor)),
     ("salt", Json.str w.salt)]

/-- What the price service hands the route (`QuoteService.getQuote`
result), after bigint-to-string conversion; `none` is JSON `null`. -/
structure RawQuoteResult where
  spotOutputAmount : Option Nat
  quoteOutputAmountDirect : Option Nat
  quoteOutputAmountNet : Option Nat
  deltaAmount : Option Int
  tribunalQuote : Option Nat
  tribunalQuoteUsd : Option Nat

/-- The validated request body fields the handler consumes. -/
structure RouteRequest where
  sponsor : String
  inputTokenChainId : Nat
  inputTokenAddress : String
  inputTokenAmount : Nat
  outputTokenChainId : Nat
  outputTokenAddress : String
  lockParameters : Option LockParameters
  context : Option QuoteContext

/-- The defaults the route substitutes for absent lock parameters:
`{allocatorId: '0', resetPeriod: 0, isMultichain: false}`. -/
def defaultLockParameters : LockParameters :=
  { allocatorId := 0, resetPeriod := 0, isMultichain := false }

/-- The all-undefined context the route substitutes for an absent one. -/
def emptyContext : QuoteContext :=
  { slippageBips := none, recipient := none, baselinePriorityFee := none
    scalingFactor := none, fillExpires := none, claimExpires := none }

structure WireResponse where
  data : Json
  context : Json

/-- The `quoteForConfig` record the handler builds, with the
`quote || spot` output-amount fallbacks. -/
def handlerQuoteForConfig (req : RouteRequest) (raw : RawQuoteResult) : QuoteForConfig :=
  { sponsor := req.sponsor
    inputTokenChainId := req.inputTokenChainId
    outputTokenChainId := req.outputTokenChainId
    inputTokenAddress := req.inputTokenAddress
    outputTokenAddress := req.outputTokenAddress
    inputTokenAmount := req.inputTokenAmount
    outputAmountDirect := jsOr raw.quoteOutputAmountDirect raw.spotOutputAmount
    outputAmountNet := jsOr raw.quoteOutputAmountNet raw.spotOutputAmount
    tribunalQuote := raw.tribunalQuote
    tribunalQuoteUsd := raw.tribunalQuoteUsd }

/-- The POST /quote handler downstream of `quoteService.getQuote`:
build `quoteForConfig` with the `quote || spot` fallbacks, fail if no
output amount is available, call `generateConfiguration`, and assemble
the response.  The wire `data` object lists exactly the fields the
source picks: arbiter, sponsor, nonce, expires, id, amount, mandate.
Any thrown error becomes an HTTP 400 with the error's message, modelled
as `Except.error`. -/
def quoteRouteHandler (keccak : Hash) (req : RouteRequest) (raw : RawQuoteResult)
    (now : Nat) (salt : String) : Except String WireResponse := do
  let quoteForConfig := handlerQuoteForConfig req raw
  if quoteForConfig.outputAmountNet = none then
    throw "Failed to get output amount from either spot or quote price"
  let cfg ← generateConfiguration keccak quoteForConfig req.sponsor 3600
    (req.lockParameters.getD defaultLockParameters) (req.context.getD emptyContext)
    now salt
  pure
    { data := Json.obj
        [("arbiter", Json.str cfg.data.arbiter),
         ("sponsor", Json.str cfg.data.sponsor),
         ("nonce", match cfg.data.nonce with
           | none => Json.null
           | some n => Json.str (toString n)),
         ("expires", Json.str (toString cfg.data.expires)),
         ("id", Json.str (toString cfg.data.id)),
         ("amount", Json.str (toString cfg.data.amount)),
         ("mandate", if cfg.data.witnessKey = "mandate".data
           then mandateToJson cfg.data.witness else Json.null)]
      context := Json.obj
        [("dispensation", optNumStr raw.tribunalQuote),
         ("dispensationUSD", match raw.tribunalQuoteUsd with
           | none => Json.null
           | some u => Json.str (usdDisplay u)),
         ("spotOutputAmount", optNumStr raw.spotOutputAmount),
         ("quoteOutputAmountDirect", optNumStr raw.quoteOutputAmountDirect),
         ("quoteOutputAmountNet", optNumStr raw.quoteOutputAmountNet),
         ("deltaAmount", optIntStr raw.deltaAmount),
         ("witnessHash", Json.str (toString cfg.witnessHash))] }

/-- The wire response the handler produces on its success path, written
out from `expectedConfiguration`; the witness sits under the key
`"mandate"` because that is the variable name parsed from the registry
string. -/
def expectedWireResponse (keccak : Hash) (req : RouteRequest) (raw : RawQuoteResult)
    (now : Nat) (salt : String) (A T : String) : WireResponse :=
  let cfg := expectedConfiguration keccak (handlerQuoteForConfig req raw) req.sponsor 3600
    (req.lockParameters.getD defaultLockParameters) (req.context.getD emptyContext)
    now salt A T
  { data := Json.obj
      [("arbiter", Json.str cfg.data.arbiter),
       ("sponsor", Json.str cfg.data.sponsor),
       ("nonce", Json.null),
       ("expires", Json.str (toString cfg.data.expires)),
       ("id", Json.str (toString cfg.data.id)),
       ("amount", Json.str (toString cfg.data.amount)),
       ("mandate", mandateToJson cfg.data.witness)]
    context := Json.obj
      [("dispensation", optNumStr raw.tribunalQuote),
       ("dispensationUSD", match raw.tribunalQuoteUsd with
         | none => Json.null
         | some u => Json.str (usdDisplay u)),
       ("spotOutputAmount", optNumStr raw.spotOutputAmount),
       ("quoteOutputAmountDirect", optNumStr raw.quoteOutputAmountDirect),
       ("quoteOutputAmountNet", optNumStr raw.quoteOutputAmountNet),
       ("deltaAmount", optIntStr raw.deltaAmount),
       ("witnessHash", Json.str (toString cfg.witnessHash))] }

/-- A concrete request on the Optimism→Base pair (the seed-test
shape). -/
def exRequest : RouteRequest :=
  { sponsor := "0x1111111111111111111111111111111111111111"
    inputTokenChainId := 10
    inputTokenAddress := "0x4444444444444444444444444444444444444444"
    inputTokenAmount := 1000000000000000000
    outputTokenChainId := 8453
    outputTokenAddress := "0x5555555555555555555555555555555555555555"
    lockParameters := some { allocatorId := 123, resetPeriod := 4, isMultichain := true }
    context := none }

/-- A concrete price-service result with both quotes present. -/
def exRaw : RawQuoteResult :=
  { spotOutputAmount := some 500000000000000000
    quoteOutputAmountDirect := some 1000000000000000000
    quoteOutputAmountNet := some 990000000000000000
    deltaAmount := some 490000000000000000
    tribunalQuote := some 50000000000000000
    tribunalQuoteUsd := some 100000000000000000000 }

/-- A concrete 32-byte salt. -/
def exSalt : String :=
  "0x3333333333333333333333333333333333333333333333333333333333333333"

/-!
## Spot-price computation (`src/services/price/QuoteService.ts`,
lines 248–287)
-/

/-- The spot output amount: normalize the input amount to 18 decimals
(scale up by `10^(18−d)` for low-decimal tokens, integer-divide by
`10^(d−18)` for high-decimal ones), take the USD value
`normalized · P_in / 10^18` (integer division), then convert into the
output token's base units `usd · 10^d_out / P_out` (integer division).
Prices are wei-scaled (18-decimal fixed point). -/
def spotOutputAmount (inputAmount dIn dOut pIn pOut : Nat) : Nat :=
  let normalizedInputAmount :=
    if dIn < 18 then inputAmount * 10 ^ (18 - dIn)
    else if 18 < dIn then inputAmount / 10 ^ (dIn - 18)
    else inputAmount
  let inputValueUsd := normalizedInputAmount * pIn / 10 ^ 18
  inputValueUsd * 10 ^ dOut / pOut

/-- The spot stage of `getQuote`: `null` when either USD price fetch
failed (the surrounding try/catch), otherwise `spotOutputAmount`.
(A zero output price would make the bigint division throw and likewise
leave spot `null`; the theorems assume positive prices.) -/
def getQuoteSpot (inputAmount dIn dOut : Nat) (pIn pOut : Option Nat) : Option Nat :=
  match pIn, pOut with
  | some a, some b => some (spotOutputAmount inputAmount dIn dOut a b)
  | _, _ => none

/-- The single-floor formula the spec states for the spot amount:
`floor(amountIn · P_in · 10^d_out / (10^d_in · P_out))`. -/
def spotOutputAmountSpec (inputAmount dIn dOut pIn pOut : Nat) : Nat :=
  inputAmount * pIn * 10 ^ dOut / (10 ^ dIn * pOut)

/-!
## Cross-chain net-quote adjustment of the unnamed QuoteService variant
(`src/unnamed/part_019`, lines 429–513 and 549–587)
-/

structure CrossChainOutcome where
  quoteOutputAmountDirect : Option Nat
  quoteOutputAmountNet : Option Nat
  tribunalQuote : Option Nat
  deltaAmount : Option Int

/-- The cross-chain block: compare the phase-1 dispensation with the
intermediate native amount (strictly: `BigInt(initialDispensation) >
BigInt(ethQuoteAmount)`), clamp the net intermediate at zero, zero the
net quote when excessive, re-simulate the tribunal at the net
intermediate amount and report that second dispensation, re-quote the
output leg at the net intermediate when not excessive, and recompute
the delta.  `tribunalAt` is the tribunal simulation as a function of
the claim amount; `routerOutAt` is the destination-side router leg as
a function of the intermediate amount. -/
def part019CrossChainAdjust (ethQuoteAmount initialDispensation : Nat)
    (tribunalAt routerOutAt : Nat → Nat)
    (quoteOutputAmountDirect : Nat) (spotOutputAmount : Option Nat) : CrossChainOutcome :=
  let isDispensationExcessive := ethQuoteAmount < initialDispensation
  let netEthAmount := if isDispensationExcessive then 0
    else ethQuoteAmount - initialDispensation
  let netAfterZeroing : Nat := if isDispensationExcessive then 0
    else quoteOutputAmountDirect
  let dispensation := tribunalAt netEthAmount
  let quoteOutputAmountNet : Nat :=
    if isDispensationExcessive then netAfterZeroing else routerOutAt netEthAmount
  let deltaAmount : Option Int :=
    match spotOutputAmount with
    | some s => some ((quoteOutputAmountNet : Int) - (s : Int))
    | none => none
  { quoteOutputAmountDirect := some quoteOutputAmountDirect
    quoteOutputAmountNet := some quoteOutputAmountNet
    tribunalQuote := some dispensation
    deltaAmount := deltaAmount }

end Calibrator

namespace Calibrator

/-!
## Theorems
-/

theorem lor_disjoint {i b : Nat} (x : Nat) (hb : b < 2 ^ i) :
    x * 2 ^ i ||| b = x * 2 ^ i + b := by
  rw [mul_comm, ← Nat.mul_add_lt_is_or hb]

theorem field_bound {a t i j : Nat} (ha : a < 2 ^ i) (ht : t < 2 ^ j) :
    a * 2 ^ j + t < 2 ^ (i + j) := by
  calc a * 2 ^ j + t < a * 2 ^ j + 2 ^ j := by omega
    _ = (a + 1) * 2 ^ j := by ring
    _ ≤ 2 ^ i * 2 ^ j := Nat.mul_le_mul_right _ ha
    _ = 2 ^ (i + j) := (pow_add 2 i j).symm

/-- Closed form of the packed id as a sum of disjoint fields, valid when
`resetPeriod` and `allocatorId` are inside their field widths. -/
theorem calculateId_eq_sum (m : Bool) (r a t : Nat) (hr : r ≤ 7) (ha : a < 2 ^ 92) :
    calculateId m r a t =
      (if m then 0 else 1) * 2 ^ 255 + r * 2 ^ 252 + a * 2 ^ 160 + t % 2 ^ 160 := by
  have hr3 : r < 2 ^ 3 := by omega
  have htm : t % 2 ^ 160 < 2 ^ 160 := Nat.mod_lt _ (by positivity)
  have hb1 : r * 2 ^ 252 < 2 ^ 255 := by
    calc r * 2 ^ 252 < 2 ^ 3 * 2 ^ 252 := by
          exact Nat.mul_lt_mul_of_lt_of_le hr3 le_rfl (by positivity)
      _ = 2 ^ 255 := by norm_num
  have hb2 : a * 2 ^ 160 < 2 ^ 252 := by
    have := field_bound (t := 0) (j := 160) ha (by positivity)
    simpa using this.trans_le (le_of_eq (by norm_num))
  have hb3 : t % 2 ^ 160 < 2 ^ 160 := htm
  unfold calculateId
  simp only [Nat.shiftLeft_eq, one_mul, Nat.and_pow_two_sub_one_eq_mod]
  rw [lor_disjoint _ hb1, show (if m then (0:Nat) else 1) * 2 ^ 255 + r * 2 ^ 252
        = ((if m then (0:Nat) else 1) * 2 ^ 3 + r) * 2 ^ 252 by ring,
      lor_disjoint _ hb2, show ((if m then (0:Nat) else 1) * 2 ^ 3 + r) * 2 ^ 252 + a * 2 ^ 160
        = (((if m then (0:Nat) else 1) * 2 ^ 3 + r) * 2 ^ 92 + a) * 2 ^ 160 by ring,
      lor_disjoint _ hb3]

theorem div_pow_extract {x low i : Nat} (hlow : low < 2 ^ i) :
    (x * 2 ^ i + low) / 2 ^ i = x := by
  rw [mul_comm x, Nat.mul_add_div (by positivity), Nat.div_eq_of_lt hlow, Nat.add_zero]

theorem mod_pow_extract (x low i : Nat) :
    (x * 2 ^ i + low) % 2 ^ i = low % 2 ^ i := by
  rw [mul_comm x, Nat.mul_add_mod]

/-- C2 (confirmed): for inputs inside their declared field widths, the
packed compact id decomposes exactly — bit 255 is the negation of
`isMultichain`, bits 254..252 are `resetPeriod`, bits 251..160 are
`allocatorId`, bits 159..0 are the input-token address — so unpacking
the four bit fields returns the inputs exactly. -/
theorem calculateId_unpack (m : Bool) (r a t : Nat)
    (hr : r ≤ 7) (ha : a < 2 ^ 92) (ht : t < 2 ^ 160) :
    (calculateId m r a t).testBit 255 = !m ∧
    calculateId m r a t / 2 ^ 252 % 2 ^ 3 = r ∧
    calculateId m r a t / 2 ^ 160 % 2 ^ 92 = a ∧
    calculateId m r a t % 2 ^ 160 = t := by
  have hsum := calculateId_eq_sum m r a t hr ha
  have htm : t % 2 ^ 160 = t := Nat.mod_eq_of_lt ht
  rw [htm] at hsum
  have hr3 : r < 2 ^ 3 := by omega
  have hlow160 : a * 2 ^ 160 + t < 2 ^ 252 := by
    have h := field_bound ha ht
    exact h.trans_le (le_of_eq (by norm_num))
  have hlow252 : r * 2 ^ 252 + (a * 2 ^ 160 + t) < 2 ^ 255 := by
    have h := field_bound hr3 hlow160
    exact h.trans_le (le_of_eq (by norm_num))
  refine ⟨?_, ?_, ?_, ?_⟩
  · rw [Nat.testBit_to_div_mod, hsum,
      show (if m then (0:Nat) else 1) * 2 ^ 255 + r * 2 ^ 252 + a * 2 ^ 160 + t
        = (if m then (0:Nat) else 1) * 2 ^ 255 + (r * 2 ^ 252 + (a * 2 ^ 160 + t)) by ring,
      div_pow_extract hlow252]
    cases m <;> simp
  · rw [hsum,
      show (if m then (0:Nat) else 1) * 2 ^ 255 + r * 2 ^ 252 + a * 2 ^ 160 + t
        = ((if m then (0:Nat) else 1) * 2 ^ 3 + r) * 2 ^ 252 + (a * 2 ^ 160 + t) by ring,
      div_pow_extract hlow160, mod_pow_extract, Nat.mod_eq_of_lt hr3]
  · rw [hsum,
      show (if m then (0:Nat) else 1) * 2 ^ 255 + r * 2 ^ 252 + a * 2 ^ 160 + t
        = (((if m then (0:Nat) else 1) * 2 ^ 3 + r) * 2 ^ 92 + a) * 2 ^ 160 + t by ring,
      div_pow_extract ht, mod_pow_extract, Nat.mod_eq_of_lt ha]
  · rw [hsum,
      show (if m then (0:Nat) else 1) * 2 ^ 255 + r * 2 ^ 252 + a * 2 ^ 160 + t
        = (((if m then (0:Nat) else 1) * 2 ^ 3 + r) * 2 ^ 92 + a) * 2 ^ 160 + t by ring,
      mod_pow_extract, Nat.mod_eq_of_lt ht]

/-- Witness for C2 at a concrete input (the seed-test lock parameters:
multichain, reset period 4, allocator id 123, a 160-bit token). -/
theorem calculateId_unpack_witness :
    (4 ≤ 7 ∧ 123 < 2 ^ 92 ∧ 0x4444444444444444444444444444444444444444 < 2 ^ 160) ∧
    ((calculateId true 4 123 0x4444444444444444444444444444444444444444).testBit 255 = !true ∧
     calculateId true 4 123 0x4444444444444444444444444444444444444444 / 2 ^ 252 % 2 ^ 3 = 4 ∧
     calculateId true 4 123 0x4444444444444444444444444444444444444444 / 2 ^ 160 % 2 ^ 92 = 123 ∧
     calculateId true 4 123 0x4444444444444444444444444444444444444444 % 2 ^ 160 =
       0x4444444444444444444444444444444444444444) :=
  ⟨⟨by norm_num, by norm_num, by norm_num⟩,
   calculateId_unpack true 4 123 0x4444444444444444444444444444444444444444
     (by norm_num) (by norm_num) (by norm_num)⟩

theorem splitOnChar_of_not_mem {c : Char} {l : List Char} (h : c ∉ l) :
    splitOnChar c l = [l] := by
  induction l with
  | nil => rfl
  | cons x xs ih =>
    have hx : ¬ x = c := fun he => h (he ▸ List.mem_cons_self x xs)
    have ihh := ih (fun hm => h (List.mem_cons_of_mem _ hm))
    simp [splitOnChar, hx, ihh]

theorem splitOnChar_append {c : Char} {l : List Char} (r : List Char) (h : c ∉ l) :
    splitOnChar c (l ++ c :: r) = l :: splitOnChar c r := by
  induction l with
  | nil => simp [splitOnChar]
  | cons x xs ih =>
    have hx : ¬ x = c := fun he => h (he ▸ List.mem_cons_self x xs)
    have ihh := ih (fun hm => h (List.mem_cons_of_mem _ hm))
    simp only [List.cons_append, splitOnChar, hx, if_false, List.append_eq, ihh]

theorem splitOnChar_joinSep {c : Char} {pieces : List (List Char)} (hne : pieces ≠ [])
    (h : ∀ p ∈ pieces, c ∉ p) :
    splitOnChar c (joinSep c pieces) = pieces := by
  induction pieces with
  | nil => exact absurd rfl hne
  | cons x xs ih =>
    cases xs with
    | nil => simpa [joinSep] using splitOnChar_of_not_mem (h x (List.mem_cons_self _ _))
    | cons y ys =>
      rw [show joinSep c (x :: y :: ys) = x ++ c :: joinSep c (y :: ys) from rfl,
        splitOnChar_append _ (h x (List.mem_cons_self _ _)),
        ih (by simp) (fun p hp => h p (List.mem_cons_of_mem _ hp))]

theorem mem_joinSep {c : Char} {pieces : List (List Char)} {x : Char}
    (hx : x ∈ joinSep c pieces) : x = c ∨ ∃ p ∈ pieces, x ∈ p := by
  induction pieces with
  | nil => simp [joinSep] at hx
  | cons a xs ih =>
    cases xs with
    | nil =>
      exact Or.inr ⟨a, List.mem_cons_self _ _, by simpa [joinSep] using hx⟩
    | cons b ys =>
      rw [show joinSep c (a :: b :: ys) = a ++ c :: joinSep c (b :: ys) from rfl] at hx
      rcases List.mem_append.1 hx with h | h
      · exact Or.inr ⟨a, List.mem_cons_self _ _, h⟩
      · rcases List.mem_cons.1 h with rfl | h
        · exact Or.inl rfl
        · rcases ih h with h | ⟨p, hp, hxp⟩
          · exact Or.inl h
          · exact Or.inr ⟨p, List.mem_cons_of_mem _ hp, hxp⟩

theorem word_not_space {c : Char} (h : isWordChar c = true) : isJsSpace c = false := by
  simp only [isJsSpace, Bool.or_eq_false_iff, beq_eq_false_iff_ne, ne_eq]
  refine ⟨⟨⟨?_, ?_⟩, ?_⟩, ?_⟩ <;> rintro rfl <;> revert h <;> decide

theorem word_ne_delims {c : Char} (h : isWordChar c = true) :
    c ≠ ')' ∧ c ≠ '(' ∧ c ≠ ',' ∧ c ≠ ' ' := by
  refine ⟨?_, ?_, ?_, ?_⟩ <;> rintro rfl <;> revert h <;> decide

theorem not_mem_of_word {S : List Char} (hS : ∀ c ∈ S, isWordChar c = true) {d : Char}
    (hd : isWordChar d = false) : d ∉ S := by
  intro hm
  rw [hS d hm] at hd
  exact Bool.noConfusion hd

theorem takeWhile_append_stop {p : Char → Bool} {l : List Char} {c : Char} (r : List Char)
    (hl : ∀ x ∈ l, p x = true) (hc : p c = false) :
    (l ++ c :: r).takeWhile p = l := by
  induction l with
  | nil => simp [List.takeWhile_cons, hc]
  | cons x xs ih =>
    have hx : p x = true := hl x (List.mem_cons_self _ _)
    simp [List.takeWhile_cons, hx, ih (fun y hy => hl y (List.mem_cons_of_mem _ hy))]

theorem dropWhile_cons_false {p : Char → Bool} {x : Char} (xs : List Char)
    (hx : p x = false) : (x :: xs).dropWhile p = x :: xs := by
  simp [List.dropWhile_cons, hx]

/-- JS `trim` leaves a grammar parameter declaration
`"Type FieldName"` unchanged: its first and last characters are word
characters. -/
theorem trimChars_param {t n : List Char} (ht : wordAtom t) (hn : wordAtom n) :
    trimChars (t ++ ' ' :: n) = t ++ ' ' :: n := by
  obtain ⟨htne, htw⟩ := ht
  obtain ⟨hnne, hnw⟩ := hn
  obtain ⟨c, t', rfl⟩ := List.exists_cons_of_ne_nil htne
  obtain ⟨m, d, hmd⟩ := List.eq_nil_or_concat n |>.resolve_left hnne
  subst hmd
  have hc : isJsSpace c = false := word_not_space (htw c (List.mem_cons_self _ _))
  have hd : isJsSpace d = false := word_not_space (hnw d (by simp))
  simp only [List.concat_eq_append]
  unfold trimChars
  rw [show (c :: t') ++ ' ' :: (m ++ [d]) = c :: (t' ++ ' ' :: (m ++ [d])) from rfl,
    dropWhile_cons_false _ hc]
  rw [show c :: (t' ++ ' ' :: (m ++ [d])) = (c :: (t' ++ ' ' :: m)) ++ [d] by simp,
    List.reverse_append]
  rw [show ([d].reverse ++ (c :: (t' ++ ' ' :: m)).reverse)
      = d :: (c :: (t' ++ ' ' :: m)).reverse by simp,
    dropWhile_cons_false _ hd]
  simp

/-- `parseParam` recovers the type/name pair of a grammar parameter
declaration. -/
theorem parseParam_grammar {t n : List Char} (ht : wordAtom t) (hn : wordAtom n) :
    parseParam (t ++ ' ' :: n) = Except.ok (t, n) := by
  have hst : ' ' ∉ t := not_mem_of_word ht.2 (by decide)
  have hsn : ' ' ∉ n := not_mem_of_word hn.2 (by decide)
  unfold parseParam
  rw [trimChars_param ht hn, splitOnChar_append _ hst, splitOnChar_of_not_mem hsn]
  have h1 : (t :: [n]).getD 0 [] = t := rfl
  have h2 : (t :: [n]).getD 1 [] = n := rfl
  simp only [h1, h2]
  rw [if_neg]
  simp [List.isEmpty_iff, ht.1, hn.1]

theorem mapM_parseParam {ps : List (List Char × List Char)}
    (hp : ∀ pr ∈ ps, wordAtom pr.1 ∧ wordAtom pr.2) :
    (grammarParamStrings ps).mapM parseParam = Except.ok ps := by
  induction ps with
  | nil => rfl
  | cons a as ih =>
    have ha := hp a (List.mem_cons_self _ _)
    have ihh := ih (fun pr hpr => hp pr (List.mem_cons_of_mem _ hpr))
    simp only [grammarParamStrings, List.map_cons, List.mapM_cons,
      parseParam_grammar ha.1 ha.2]
    simp only [grammarParamStrings] at ihh
    rw [ihh]
    rfl

/-- Characters of the joined parameter segment are commas, spaces or
word characters. -/
theorem mem_grammar_join {ps : List (List Char × List Char)}
    (hp : ∀ pr ∈ ps, wordAtom pr.1 ∧ wordAtom pr.2) {x : Char}
    (hx : x ∈ joinSep ',' (grammarParamStrings ps)) :
    x = ',' ∨ x = ' ' ∨ isWordChar x = true := by
  rcases mem_joinSep hx with rfl | ⟨p, hpmem, hxp⟩
  · exact Or.inl rfl
  · obtain ⟨pr, hpr, rfl⟩ := List.mem_map.1 hpmem
    rcases List.mem_append.1 hxp with h | h
    · exact Or.inr (Or.inr ((hp pr hpr).1.2 x h))
    · rcases List.mem_cons.1 h with rfl | h
      · exact Or.inr (Or.inl rfl)
      · exact Or.inr (Or.inr ((hp pr hpr).2.2 x h))

/-- The parser accepts every witness type string of the §4.5 grammar
(over word-character tokens) and returns exactly its components; the
type-definition piece it keeps is the canonical definition minus the
final parenthesis. -/
theorem parseWitnessTypeString_grammar (S v : List Char) (ps : List (List Char × List Char))
    (hS : wordAtom S) (hv : wordAtom v) (hps : ps ≠ [])
    (hp : ∀ pr ∈ ps, wordAtom pr.1 ∧ wordAtom pr.2) :
    parseWitnessTypeString (grammarWitnessString S v ps) =
      Except.ok ⟨S, v, ps, S ++ '(' :: joinSep ',' (grammarParamStrings ps)⟩ := by
  have hrpS : ')' ∉ S := not_mem_of_word hS.2 (by decide)
  have hrpv : ')' ∉ v := not_mem_of_word hv.2 (by decide)
  have hlpS : '(' ∉ S := not_mem_of_word hS.2 (by decide)
  have hspS : ' ' ∉ S := not_mem_of_word hS.2 (by decide)
  have hspv : ' ' ∉ v := not_mem_of_word hv.2 (by decide)
  have hrpJ : ')' ∉ joinSep ',' (grammarParamStrings ps) := by
    intro hm
    rcases mem_grammar_join hp hm with h | h | h
    · exact absurd h (by decide)
    · exact absurd h (by decide)
    · exact absurd h (by decide)
  have hlpJ : '(' ∉ joinSep ',' (grammarParamStrings ps) := by
    intro hm
    rcases mem_grammar_join hp hm with h | h | h
    · exact absurd h (by decide)
    · exact absurd h (by decide)
    · exact absurd h (by decide)
  have hA : ')' ∉ S ++ ' ' :: v := by
    intro hm
    rcases List.mem_append.1 hm with h | h
    · exact hrpS h
    · rcases List.mem_cons.1 h with h | h
      · exact absurd h (by decide)
      · exact hrpv h
  have hD : ')' ∉ S ++ '(' :: joinSep ',' (grammarParamStrings ps) := by
    intro hm
    rcases List.mem_append.1 hm with h | h
    · exact hrpS h
    · rcases List.mem_cons.1 h with h | h
      · exact absurd h (by decide)
      · exact hrpJ h
  have hshape : grammarWitnessString S v ps
      = (S ++ ' ' :: v) ++ ')' ::
        ((S ++ '(' :: joinSep ',' (grammarParamStrings ps)) ++ ')' :: []) := by
    simp [grammarWitnessString]
  have hsplit : splitOnChar ')' (grammarWitnessString S v ps)
      = [S ++ ' ' :: v, S ++ '(' :: joinSep ',' (grammarParamStrings ps), []] := by
    rw [hshape, splitOnChar_append _ hA, splitOnChar_append _ hD]
    rfl
  have hAne : (S ++ ' ' :: v) ≠ [] := by simp
  have hDne : (S ++ '(' :: joinSep ',' (grammarParamStrings ps)) ≠ [] := by simp
  have hfilter : (splitOnChar ')' (grammarWitnessString S v ps)).filter
        (fun p => p.length > 0)
      = [S ++ ' ' :: v, S ++ '(' :: joinSep ',' (grammarParamStrings ps)] := by
    rw [hsplit]
    simp [List.filter, List.length_pos, hAne, hDne]
  have hdecl : splitOnChar ' ' (S ++ ' ' :: v) = [S, v] := by
    rw [splitOnChar_append _ hspS, splitOnChar_of_not_mem hspv]
  have hlead : (S ++ '(' :: joinSep ',' (grammarParamStrings ps)).takeWhile isWordChar
      = S := takeWhile_append_stop _ hS.2 (by decide)
  have hdrop : (S ++ '(' :: joinSep ',' (grammarParamStrings ps)).drop S.length
      = '(' :: joinSep ',' (grammarParamStrings ps) := List.drop_left S _
  have hlsplit : splitOnChar '(' (S ++ '(' :: joinSep ',' (grammarParamStrings ps))
      = [S, joinSep ',' (grammarParamStrings ps)] := by
    rw [splitOnChar_append _ hlpS, splitOnChar_of_not_mem hlpJ]
  have hcomma : ∀ p ∈ grammarParamStrings ps, ',' ∉ p := by
    intro p hpm hm
    obtain ⟨pr, hpr, rfl⟩ := List.mem_map.1 hpm
    rcases List.mem_append.1 hm with h | h
    · exact absurd ((hp pr hpr).1.2 _ h) (by decide)
    · rcases List.mem_cons.1 h with h | h
      · exact absurd h (by decide)
      · exact absurd ((hp pr hpr).2.2 _ h) (by decide)
  have hpsne : grammarParamStrings ps ≠ [] := by
    simp [grammarParamStrings, hps]
  have hcsplit : splitOnChar ',' (joinSep ',' (grammarParamStrings ps))
      = grammarParamStrings ps := splitOnChar_joinSep hpsne hcomma
  simp only [parseWitnessTypeString, hfilter, hdecl]
  have hg1 : ([S, v].getD 0 []) = S := rfl
  have hg2 : ([S, v].getD 1 []) = v := rfl
  rw [hg1, hg2, if_neg (by simp [List.isEmpty_iff, hS.1, hv.1]), hlead]
  rw [if_neg (by simp [List.isEmpty_iff, hS.1, hdrop]), if_neg (by simp)]
  rw [hlsplit]
  have hg3 : ([S, joinSep ',' (grammarParamStrings ps)].getD 1 [])
      = joinSep ',' (grammarParamStrings ps) := rfl
  rw [hg3, splitOnChar_of_not_mem hrpJ]
  have hg4 : ([joinSep ',' (grammarParamStrings ps)].getD 0 [])
      = joinSep ',' (grammarParamStrings ps) := rfl
  rw [hg4, hcsplit, mapM_parseParam hp]

/-- C3 (corrected) — counterexample to the claim as stated: the type
hash is keccak of the type definition with field names, not of the
struct name followed by the comma-joined solidity types only.  At the
registry's Mandate string, with byte-string length as the hash, the two
computations read byte strings of different lengths. -/
theorem typeHash_typesOnly_counterexample :
    parseWitnessTypeString registryWitnessTypeString.data =
      Except.ok registryParsedWitness ∧
    witnessTypeHash lengthHash registryParsedWitness ≠
      lengthHash ((canonicalTypesOnly registryParsedWitness.structName
        registryParsedWitness.params).map Char.toNat) := by
  constructor
  · rfl
  · decide

/-- C3 (corrected, amended): for every witness type string of the §4.5
grammar (struct name, variable name and parameter tokens made of
word characters), the parser accepts, and the EIP-712 type hash computed
by `generateWitnessHash` is keccak256 of the canonical string formed as
the struct name, an opening parenthesis, the comma-joined `"SolidityType
FieldName"` parameter declarations in declaration order — field names
included — and a closing parenthesis. -/
theorem witnessTypeHash_canonicalWithNames (keccak : Hash)
    (S v : List Char) (ps : List (List Char × List Char))
    (hS : wordAtom S) (hv : wordAtom v) (hps : ps ≠ [])
    (hp : ∀ pr ∈ ps, wordAtom pr.1 ∧ wordAtom pr.2) :
    parseWitnessTypeString (grammarWitnessString S v ps) =
      Except.ok ⟨S, v, ps, S ++ '(' :: joinSep ',' (grammarParamStrings ps)⟩ ∧
    witnessTypeHash keccak ⟨S, v, ps, S ++ '(' :: joinSep ',' (grammarParamStrings ps)⟩ =
      keccak ((canonicalWithNames S ps).map Char.toNat) := by
  refine ⟨parseWitnessTypeString_grammar S v ps hS hv hps hp, ?_⟩
  unfold witnessTypeHash canonicalWithNames
  simp

/-- Witness for the amended C3 at the registry's Mandate components. -/
theorem witnessTypeHash_canonicalWithNames_witness :
    (wordAtom "Mandate".data ∧ wordAtom "mandate".data ∧
     registryParsedWitness.params ≠ [] ∧
     (∀ pr ∈ registryParsedWitness.params, wordAtom pr.1 ∧ wordAtom pr.2)) ∧
    (parseWitnessTypeString
        (grammarWitnessString "Mandate".data "mandate".data registryParsedWitness.params) =
      Except.ok ⟨"Mandate".data, "mandate".data, registryParsedWitness.params,
        "Mandate".data ++ '(' ::
          joinSep ',' (grammarParamStrings registryParsedWitness.params)⟩ ∧
    witnessTypeHash lengthHash ⟨"Mandate".data, "mandate".data,
        registryParsedWitness.params,
        "Mandate".data ++ '(' ::
          joinSep ',' (grammarParamStrings registryParsedWitness.params)⟩ =
      lengthHash ((canonicalWithNames "Mandate".data
        registryParsedWitness.params).map Char.toNat)) :=
  ⟨⟨⟨by decide, by decide⟩, ⟨by decide, by decide⟩, by decide, by decide⟩,
   witnessTypeHash_canonicalWithNames lengthHash "Mandate".data "mandate".data
     registryParsedWitness.params ⟨by decide, by decide⟩ ⟨by decide, by decide⟩
     (by decide) (by decide)⟩

/-- The parse of the registry's witness type string, fully evaluated. -/
theorem parse_registryWitnessTypeString :
    parseWitnessTypeString registryWitnessTypeString.data =
      Except.ok registryParsedWitness := by
  rfl

/-- Shared evaluation: on the registry's type string with a resolver
witness, `generateWitnessHash` succeeds and produces keccak of the
encoded `[typeHash, chainId, tribunal, recipient, expires, token,
minimumAmount, baselinePriorityFee, scalingFactor, salt]`. -/
theorem generateWitnessHash_registry (keccak : Hash) (w : WitnessData) :
    generateWitnessHash keccak registryWitnessTypeString.data (witnessDict w) =
      Except.ok (keccak (encodeWords
        [keccak (strBytes MANDATE_TYPE_STRING), w.chainId, hexToNat w.tribunal,
         hexToNat w.recipient, w.expires, hexToNat w.token, w.minimumAmount,
         w.baselinePriorityFee, w.scalingFactor, hexToNat w.salt])) := by
  rfl

/-- C6 (corrected) — counterexample to the claim as stated: the
resolver computes `net − net·bips/10000`, not `net·(10000−bips)/10000`
(at net 3, bips 1 these are 3 and 2), and an explicit `slippageBips: 0`
is JS-falsy and falls back to the default 100, so the minimum amount at
0 bips is not the amount itself. -/
theorem minimumAmount_counterexample :
    resolverMinimumAmount (some 3) (some 1) = 3 ∧
    3 * (10000 - 1) / 10000 = 2 ∧
    resolverMinimumAmount (some 10000) (some 0) = 9900 := by
  refine ⟨rfl, by decide, rfl⟩

/-- C6 (corrected, amended): the resolver's minimum amount is
`net − net·eff/10000` with `eff = slippageBips` when present and
non-zero, else the default 100; it is non-increasing in `slippageBips`
on 1..10000; an explicit 0 yields the same value as the default 100
(not the amount itself); and an absent value uses the default. -/
theorem resolverMinimumAmount_amended (net : Nat) (b : Option Nat) :
    resolverMinimumAmount (some net) b
        = net - net * effectiveSlippageBips b / 10000 ∧
    (∀ b₁ b₂ : Nat, 1 ≤ b₁ → b₁ ≤ b₂ → b₂ ≤ 10000 →
      resolverMinimumAmount (some net) (some b₂) ≤
        resolverMinimumAmount (some net) (some b₁)) ∧
    resolverMinimumAmount (some net) (some 0) =
      resolverMinimumAmount (some net) (some 100) ∧
    resolverMinimumAmount (some net) none = net - net * 100 / 10000 := by
  refine ⟨rfl, ?_, rfl, rfl⟩
  intro b₁ b₂ h1 h2 h3
  simp only [resolverMinimumAmount, effectiveSlippageBips]
  rw [if_neg (by omega), if_neg (by omega)]
  have hdiv : net * b₁ / 10000 ≤ net * b₂ / 10000 :=
    Nat.div_le_div_right (Nat.mul_le_mul_left _ h2)
  omega

/-- Witness for the amended C6 at the seed-test amount and a custom
50-bips slippage. -/
theorem resolverMinimumAmount_amended_witness :
    resolverMinimumAmount (some 1000000000000000000) (some 50)
        = 1000000000000000000 - 1000000000000000000 * effectiveSlippageBips (some 50) / 10000 ∧
    (1 ≤ 50 ∧ 50 ≤ 100 ∧ 100 ≤ 10000) ∧
    resolverMinimumAmount (some 1000000000000000000) (some 100) ≤
      resolverMinimumAmount (some 1000000000000000000) (some 50) :=
  ⟨(resolverMinimumAmount_amended 1000000000000000000 (some 50)).1,
   ⟨by decide, by decide, by decide⟩,
   (resolverMinimumAmount_amended 1000000000000000000 (some 50)).2.1 50 100
     (by decide) (by decide) (by decide)⟩

/-- C7 (corrected) — counterexample to the claim as stated: the
pipeline floors the USD value before converting to output units, so it
is not the single-floor formula.  One base unit of an 18-decimal token
worth 0.50 USD against an output price of 0.10 USD: the single-floor
formula gives 5 output units, the code gives 0. -/
theorem spot_singleFloor_counterexample :
    getQuoteSpot 1 18 18 (some (5 * 10 ^ 17)) (some (10 ^ 17)) = some 0 ∧
    spotOutputAmountSpec 1 18 18 (5 * 10 ^ 17) (10 ^ 17) = 5 := by
  refine ⟨by decide, by decide⟩

theorem div_mul_div_le (x y E z : Nat) (hE : 0 < E) :
    x / E * y / z ≤ x * y / (E * z) := by
  have h1 : x / E * y ≤ x * y / E := by
    rw [Nat.le_div_iff_mul_le hE]
    calc x / E * y * E = x / E * E * y := by ring
      _ ≤ x * y := Nat.mul_le_mul_right y (Nat.div_mul_le_self x E)
  calc x / E * y / z ≤ x * y / E / z := Nat.div_le_div_right h1
    _ = x * y / (E * z) := Nat.div_div_eq_div_mul _ _ _

/-- C7 (corrected, amended): when both USD price fetches succeed the
spot amount is the two-stage computation
`floor(floor(norm(amountIn)·P_in/10^18)·10^d_out/P_out)` (with the
input normalized to 18 decimals first), which never exceeds the
spec's single-floor formula
`floor(amountIn·P_in·10^d_out/(10^d_in·P_out))`.  Input decimals are
bounded by 40 so the JS `10 ** (18 − d)` scale is exact. -/
theorem spot_amended (amount dIn dOut pIn pOut : Nat) (_hd : dIn ≤ 40) (_hp : 0 < pOut) :
    getQuoteSpot amount dIn dOut (some pIn) (some pOut)
        = some (spotOutputAmount amount dIn dOut pIn pOut) ∧
    spotOutputAmount amount dIn dOut pIn pOut ≤
      spotOutputAmountSpec amount dIn dOut pIn pOut := by
  refine ⟨rfl, ?_⟩
  unfold spotOutputAmount spotOutputAmountSpec
  rcases Nat.lt_trichotomy dIn 18 with hlt | heq | hgt
  · rw [if_pos hlt]
    have hsplit : (10:Nat) ^ 18 = 10 ^ dIn * 10 ^ (18 - dIn) := by
      rw [← pow_add]
      congr 1
      omega
    calc amount * 10 ^ (18 - dIn) * pIn / 10 ^ 18 * 10 ^ dOut / pOut
        ≤ amount * 10 ^ (18 - dIn) * pIn * 10 ^ dOut / (10 ^ 18 * pOut) :=
          div_mul_div_le _ _ _ _ (by positivity)
      _ = amount * pIn * 10 ^ dOut * 10 ^ (18 - dIn) /
            (10 ^ dIn * pOut * 10 ^ (18 - dIn)) := by
          rw [hsplit]
          ring_nf
      _ = amount * pIn * 10 ^ dOut / (10 ^ dIn * pOut) :=
          Nat.mul_div_mul_right _ _ (by positivity)
  · subst heq
    rw [if_neg (by omega), if_neg (by omega)]
    exact div_mul_div_le _ _ _ _ (by positivity)
  · rw [if_neg (by omega), if_pos hgt]
    have hsplit : (10:Nat) ^ dIn = 10 ^ (dIn - 18) * 10 ^ 18 := by
      rw [← pow_add]
      congr 1
      omega
    have hnorm : amount / 10 ^ (dIn - 18) * pIn / 10 ^ 18
        ≤ amount * pIn / (10 ^ (dIn - 18) * 10 ^ 18) := by
      have h1 : amount / 10 ^ (dIn - 18) * pIn ≤ amount * pIn / 10 ^ (dIn - 18) := by
        rw [Nat.le_div_iff_mul_le (by positivity)]
        calc amount / 10 ^ (dIn - 18) * pIn * 10 ^ (dIn - 18)
            = amount / 10 ^ (dIn - 18) * 10 ^ (dIn - 18) * pIn := by ring
          _ ≤ amount * pIn := Nat.mul_le_mul_right pIn (Nat.div_mul_le_self _ _)
      calc amount / 10 ^ (dIn - 18) * pIn / 10 ^ 18
          ≤ amount * pIn / 10 ^ (dIn - 18) / 10 ^ 18 := Nat.div_le_div_right h1
        _ = amount * pIn / (10 ^ (dIn - 18) * 10 ^ 18) := Nat.div_div_eq_div_mul _ _ _
    calc amount / 10 ^ (dIn - 18) * pIn / 10 ^ 18 * 10 ^ dOut / pOut
        ≤ amount * pIn / (10 ^ (dIn - 18) * 10 ^ 18) * 10 ^ dOut / pOut := by
          exact Nat.div_le_div_right (Nat.mul_le_mul_right _ hnorm)
      _ ≤ amount * pIn * 10 ^ dOut / (10 ^ (dIn - 18) * 10 ^ 18 * pOut) :=
          div_mul_div_le _ _ _ _ (by positivity)
      _ = amount * pIn * 10 ^ dOut / (10 ^ dIn * pOut) := by
          rw [hsplit]

/-- Witness for the amended C7 at the counterexample's inputs. -/
theorem spot_amended_witness :
    (18 ≤ 40 ∧ 0 < 10 ^ 17) ∧
    (getQuoteSpot 1 18 18 (some (5 * 10 ^ 17)) (some (10 ^ 17))
        = some (spotOutputAmount 1 18 18 (5 * 10 ^ 17) (10 ^ 17)) ∧
     spotOutputAmount 1 18 18 (5 * 10 ^ 17) (10 ^ 17) ≤
       spotOutputAmountSpec 1 18 18 (5 * 10 ^ 17) (10 ^ 17)) :=
  ⟨⟨by decide, by positivity⟩,
   spot_amended 1 18 18 (5 * 10 ^ 17) (10 ^ 17) (by decide) (by positivity)⟩

/-- C9 (corrected) — counterexample to the claim as stated: at a
dispensation exactly equal to the intermediate amount the comparison
(`>`, strict) is not excessive, so the net output is whatever the
router returns for a zero intermediate (here 5, not 0), and the
reported dispensation is the phase-2 re-simulation (here 7), not the
phase-1 value 10. -/
theorem crossChain_dispensation_counterexample :
    10 ≥ 10 ∧
    part019CrossChainAdjust 10 10 (fun _ => 7) (fun _ => 5) 9 none =
      { quoteOutputAmountDirect := some 9, quoteOutputAmountNet := some 5,
        tribunalQuote := some 7, deltaAmount := none } := by
  exact ⟨le_rfl, rfl⟩

/-- C9 (corrected, amended): when the phase-1 dispensation strictly
exceeds the intermediate native amount, the net output is 0, the direct
output is preserved, and the reported dispensation is the phase-2
re-simulation at a zero claim amount — present (never null), though not
necessarily the phase-1 value.  At exact equality the strict comparison
does not fire and the net leg is re-quoted with a zero intermediate. -/
theorem crossChain_dispensation_amended (ethQ disp : Nat)
    (tribunalAt routerOutAt : Nat → Nat) (direct : Nat) (spot : Option Nat)
    (h : ethQ < disp) :
    (part019CrossChainAdjust ethQ disp tribunalAt routerOutAt direct spot).quoteOutputAmountNet
        = some 0 ∧
    (part019CrossChainAdjust ethQ disp tribunalAt routerOutAt direct spot).quoteOutputAmountDirect
        = some direct ∧
    (part019CrossChainAdjust ethQ disp tribunalAt routerOutAt direct spot).tribunalQuote
        = some (tribunalAt 0) ∧
    (part019CrossChainAdjust ethQ disp tribunalAt routerOutAt direct spot).tribunalQuote
        ≠ none := by
  unfold part019CrossChainAdjust
  simp [h]

/-- Witness for the amended C9: dispensation 12 against intermediate
10, with a tribunal whose phase-2 answer at 0 is 7. -/
theorem crossChain_dispensation_amended_witness :
    10 < 12 ∧
    ((part019CrossChainAdjust 10 12 (fun _ => 7) (fun _ => 5) 9 none).quoteOutputAmountNet
        = some 0 ∧
     (part019CrossChainAdjust 10 12 (fun _ => 7) (fun _ => 5) 9 none).quoteOutputAmountDirect
        = some 9 ∧
     (part019CrossChainAdjust 10 12 (fun _ => 7) (fun _ => 5) 9 none).tribunalQuote
        = some ((fun _ => 7) 0) ∧
     (part019CrossChainAdjust 10 12 (fun _ => 7) (fun _ => 5) 9 none).tribunalQuote
        ≠ none) :=
  ⟨by decide,
   crossChain_dispensation_amended 10 12 (fun _ => 7) (fun _ => 5) 9 none (by decide)⟩

theorem except_throw_eq {ε α : Type} (e : ε) : (throw e : Except ε α) = Except.error e := rfl

theorem except_error_bind {ε α β : Type} (e : ε) (f : α → Except ε β) :
    (Except.error e : Except ε α) >>= f = Except.error e := rfl

theorem except_ok_bind {ε α β : Type} (a : α) (f : α → Except ε β) :
    (Except.ok a : Except ε α) >>= f = f a := rfl

theorem registry_nonEmptyParts_eval :
    (splitOnChar ')' registryWitnessTypeString.data).filter (fun p => p.length > 0)
      = ["Mandate mandate".data, MANDATE_TYPE_STRING.data.dropLast] := rfl

theorem registry_variableName_eval :
    (splitOnChar ' ' "Mandate mandate".data).getD 1 [] = "mandate".data := rfl

/-- Shared success-path evaluation of `generateConfiguration`: with a
reset period inside 0..7, a registered chain pair, and an expiry order
that passes the check, the service returns exactly
`expectedConfiguration`. -/
theorem generateConfiguration_ok (keccak : Hash) (quote : QuoteForConfig) (sponsor : String)
    (duration : Nat) (lp : LockParameters) (context : QuoteContext) (now : Nat)
    (salt : String) (A T : String)
    (harb : arbiterMapping quote.inputTokenChainId quote.outputTokenChainId =
      some (mkEntry A T))
    (hrp0 : 0 ≤ lp.resetPeriod) (hrp7 : lp.resetPeriod ≤ 7)
    (hexp : computedFillExpires context now duration <
      computedClaimExpires context now duration) :
    generateConfiguration keccak quote sponsor duration lp context now salt =
      Except.ok (expectedConfiguration keccak quote sponsor duration lp context
        now salt A T) := by
  have h1 : ¬(lp.resetPeriod < 0 ∨ 7 < lp.resetPeriod) := by omega
  have h2 : ¬(context.claimExpires.getD (context.fillExpires.getD (now + duration) + 300)
      ≤ context.fillExpires.getD (now + duration)) := by
    simp only [computedFillExpires, computedClaimExpires] at hexp
    omega
  simp only [generateConfiguration, h1, if_false, harb, mkEntry,
    registry_nonEmptyParts_eval, h2]
  simp only [expectedConfiguration, computedFillExpires, computedClaimExpires,
    generateWitnessHash_registry, registry_variableName_eval]
  rfl

/-- Shared success-path evaluation of the handler: with an available
output amount and a passing configuration, the response is exactly
`expectedWireResponse`. -/
theorem quoteRouteHandler_ok (keccak : Hash) (req : RouteRequest) (raw : RawQuoteResult)
    (now : Nat) (salt : String) (A T : String) (n : Nat)
    (harb : arbiterMapping req.inputTokenChainId req.outputTokenChainId =
      some (mkEntry A T))
    (hrp0 : 0 ≤ (req.lockParameters.getD defaultLockParameters).resetPeriod)
    (hrp7 : (req.lockParameters.getD defaultLockParameters).resetPeriod ≤ 7)
    (hexp : computedFillExpires (req.context.getD emptyContext) now 3600 <
      computedClaimExpires (req.context.getD emptyContext) now 3600)
    (hnet : jsOr raw.quoteOutputAmountNet raw.spotOutputAmount = some n) :
    quoteRouteHandler keccak req raw now salt =
      Except.ok (expectedWireResponse keccak req raw now salt A T) := by
  have hcfg := generateConfiguration_ok keccak (handlerQuoteForConfig req raw) req.sponsor
    3600 (req.lockParameters.getD defaultLockParameters) (req.context.getD emptyContext)
    now salt A T harb hrp0 hrp7 hexp
  have hnn : (handlerQuoteForConfig req raw).outputAmountNet ≠ none := by
    simp only [handlerQuoteForConfig, hnet]
    exact Option.some_ne_none n
  simp only [quoteRouteHandler, if_neg hnn, hcfg]
  simp only [expectedWireResponse, expectedConfiguration]
  rfl

/-- C10 (confirmed): when the context omits `claimExpires`, the
configuration succeeds with the compact's `expires` equal to
`fillExpires + 300`, where `fillExpires` itself defaults to
`now + duration`; in particular the `fillExpires < claimExpires` check
can never fail when `claimExpires` is absent. -/
theorem claimExpires_default (keccak : Hash) (quote : QuoteForConfig) (sponsor : String)
    (duration : Nat) (lp : LockParameters) (context : QuoteContext) (now : Nat)
    (salt : String) (A T : String)
    (harb : arbiterMapping quote.inputTokenChainId quote.outputTokenChainId =
      some (mkEntry A T))
    (hrp0 : 0 ≤ lp.resetPeriod) (hrp7 : lp.resetPeriod ≤ 7)
    (hce : context.claimExpires = none) :
    generateConfiguration keccak quote sponsor duration lp context now salt =
      Except.ok (expectedConfiguration keccak quote sponsor duration lp context
        now salt A T) ∧
    (expectedConfiguration keccak quote sponsor duration lp context
        now salt A T).data.expires = context.fillExpires.getD (now + duration) + 300 := by
  have hexp : computedFillExpires context now duration <
      computedClaimExpires context now duration := by
    simp [computedFillExpires, computedClaimExpires, hce]
  refine ⟨generateConfiguration_ok keccak quote sponsor duration lp context now salt A T
    harb hrp0 hrp7 hexp, ?_⟩
  simp [expectedConfiguration, computedClaimExpires, computedFillExpires, hce]

/-- Witness for C10 on the Optimism→Base pair with an empty context. -/
theorem claimExpires_default_witness :
    (arbiterMapping (handlerQuoteForConfig exRequest exRaw).inputTokenChainId
        (handlerQuoteForConfig exRequest exRaw).outputTokenChainId =
      some (mkEntry addrOptimism addrBase) ∧
     (0:Int) ≤ (4:Int) ∧ (4:Int) ≤ 7 ∧ emptyContext.claimExpires = none) ∧
    (generateConfiguration lengthHash (handlerQuoteForConfig exRequest exRaw)
        "0x1111111111111111111111111111111111111111" 3600
        { allocatorId := 123, resetPeriod := 4, isMultichain := true }
        emptyContext 1700000000 exSalt =
      Except.ok (expectedConfiguration lengthHash (handlerQuoteForConfig exRequest exRaw)
        "0x1111111111111111111111111111111111111111" 3600
        { allocatorId := 123, resetPeriod := 4, isMultichain := true }
        emptyContext 1700000000 exSalt addrOptimism addrBase) ∧
     (expectedConfiguration lengthHash (handlerQuoteForConfig exRequest exRaw)
        "0x1111111111111111111111111111111111111111" 3600
        { allocatorId := 123, resetPeriod := 4, isMultichain := true }
        emptyContext 1700000000 exSalt addrOptimism addrBase).data.expires =
      emptyContext.fillExpires.getD (1700000000 + 3600) + 300) :=
  ⟨⟨rfl, by decide, by decide, rfl⟩,
   claimExpires_default lengthHash (handlerQuoteForConfig exRequest exRaw)
     "0x1111111111111111111111111111111111111111" 3600
     { allocatorId := 123, resetPeriod := 4, isMultichain := true }
     emptyContext 1700000000 exSalt addrOptimism addrBase rfl (by decide) (by decide) rfl⟩

/-- C5 (corrected) — counterexample to the claim as stated: an
allocator id of `2^92` (one past its field width) does not make the
construction fail; `generateConfiguration` returns a packed id. -/
theorem compactId_overflow_counterexample :
    2 ^ 92 ≥ 2 ^ 92 ∧
    (generateConfiguration lengthHash (handlerQuoteForConfig exRequest exRaw)
      "0x1111111111111111111111111111111111111111" 3600
      { allocatorId := 2 ^ 92, resetPeriod := 0, isMultichain := false }
      emptyContext 1700000000 exSalt).isOk = true := by
  exact ⟨le_rfl, rfl⟩

/-- C5 (corrected, amended): only a reset period outside 0..7 fails
(with the message `"Reset period must be between 0 and 7"`); an
oversized input token address is silently truncated to its low 160 bits
by the mask, and an oversized allocator id is not rejected — with the
reset period in range and a registered pair the construction succeeds
for every allocator id and input token. -/
theorem compactId_validation_amended :
    (∀ (keccak : Hash) (quote : QuoteForConfig) (sponsor : String) (duration : Nat)
      (lp : LockParameters) (context : QuoteContext) (now : Nat) (salt : String),
      lp.resetPeriod < 0 ∨ 7 < lp.resetPeriod →
      generateConfiguration keccak quote sponsor duration lp context now salt =
        Except.error "Reset period must be between 0 and 7") ∧
    (∀ (m : Bool) (r a t : Nat), calculateId m r a t = calculateId m r a (t % 2 ^ 160)) ∧
    (∀ (keccak : Hash) (quote : QuoteForConfig) (sponsor : String) (duration : Nat)
      (lp : LockParameters) (context : QuoteContext) (now : Nat) (salt : String)
      (A T : String),
      arbiterMapping quote.inputTokenChainId quote.outputTokenChainId =
        some (mkEntry A T) →
      0 ≤ lp.resetPeriod → lp.resetPeriod ≤ 7 →
      computedFillExpires context now duration <
        computedClaimExpires context now duration →
      (generateConfiguration keccak quote sponsor duration lp context now salt).isOk
        = true) := by
  refine ⟨?_, ?_, ?_⟩
  · intro keccak quote sponsor duration lp context now salt h
    simp [generateConfiguration, h, except_throw_eq, except_error_bind]
  · intro m r a t
    unfold calculateId
    simp only [Nat.shiftLeft_eq, one_mul, Nat.and_pow_two_sub_one_eq_mod]
    rw [Nat.mod_mod_of_dvd t (dvd_refl (2 ^ 160))]
  · intro keccak quote sponsor duration lp context now salt A T harb hrp0 hrp7 hexp
    rw [generateConfiguration_ok keccak quote sponsor duration lp context now salt A T
      harb hrp0 hrp7 hexp]
    rfl

/-- Witness for the amended C5: a reset period of 8 fails with the
reset-period message; the id mask truncates a 161-bit token address;
and an allocator id of `2^92` still succeeds. -/
theorem compactId_validation_amended_witness :
    ((8:Int) < 0 ∨ (7:Int) < 8) ∧
    (generateConfiguration lengthHash (handlerQuoteForConfig exRequest exRaw)
        "0x1111111111111111111111111111111111111111" 3600
        { allocatorId := 123, resetPeriod := 8, isMultichain := true }
        emptyContext 1700000000 exSalt =
      Except.error "Reset period must be between 0 and 7") ∧
    calculateId true 4 123 (2 ^ 160 + 7) = calculateId true 4 123 ((2 ^ 160 + 7) % 2 ^ 160) ∧
    (generateConfiguration lengthHash (handlerQuoteForConfig exRequest exRaw)
        "0x1111111111111111111111111111111111111111" 3600
        { allocatorId := 2 ^ 92, resetPeriod := 0, isMultichain := false }
        emptyContext 1700000000 exSalt).isOk = true :=
  ⟨by decide,
   compactId_validation_amended.1 lengthHash (handlerQuoteForConfig exRequest exRaw)
     "0x1111111111111111111111111111111111111111" 3600
     { allocatorId := 123, resetPeriod := 8, isMultichain := true }
     emptyContext 1700000000 exSalt (by decide),
   compactId_validation_amended.2.1 true 4 123 (2 ^ 160 + 7),
   compactId_validation_amended.2.2 lengthHash (handlerQuoteForConfig exRequest exRaw)
     "0x1111111111111111111111111111111111111111" 3600
     { allocatorId := 2 ^ 92, resetPeriod := 0, isMultichain := false }
     emptyContext 1700000000 exSalt addrOptimism addrBase rfl (by decide) (by decide)
     (by decide)⟩

/-- C4 (corrected) — counterexample to the claim as stated: on a
successful request the wire `data` object carries neither `tribunal`
nor `maximumAmount` (both are computed in the compact but dropped by
the response assembly). -/
theorem wireData_counterexample :
    (quoteRouteHandler lengthHash exRequest exRaw 1700000000 exSalt).map
        (fun r => (jsonLookup r.data "tribunal", jsonLookup r.data "maximumAmount"))
      = Except.ok (none, none) := rfl

/-- C4 (corrected, amended): a successful response's `data` object
contains `arbiter`, `sponsor`, `nonce` (JSON null), `expires`
(= claimExpires, as a decimal string), `id`, `amount`
(= inputTokenAmount, as a decimal string) and the embedded mandate
under the key `"mandate"` — but not `tribunal` or `maximumAmount`,
which are computed in the compact and omitted from the wire; the
bigint-derived fields are decimal strings (the mandate's `chainId`,
a JS number, stays a JSON number). -/
theorem wireData_amended (keccak : Hash) (req : RouteRequest) (raw : RawQuoteResult)
    (now : Nat) (salt : String) (A T : String) (n : Nat)
    (harb : arbiterMapping req.inputTokenChainId req.outputTokenChainId =
      some (mkEntry A T))
    (hrp0 : 0 ≤ (req.lockParameters.getD defaultLockParameters).resetPeriod)
    (hrp7 : (req.lockParameters.getD defaultLockParameters).resetPeriod ≤ 7)
    (hexp : computedFillExpires (req.context.getD emptyContext) now 3600 <
      computedClaimExpires (req.context.getD emptyContext) now 3600)
    (hnet : jsOr raw.quoteOutputAmountNet raw.spotOutputAmount = some n) :
    quoteRouteHandler keccak req raw now salt =
      Except.ok (expectedWireResponse keccak req raw now salt A T) ∧
    jsonLookup (expectedWireResponse keccak req raw now salt A T).data "tribunal" = none ∧
    jsonLookup (expectedWireResponse keccak req raw now salt A T).data "maximumAmount"
      = none ∧
    jsonLookup (expectedWireResponse keccak req raw now salt A T).data "nonce"
      = some Json.null ∧
    jsonLookup (expectedWireResponse keccak req raw now salt A T).data "expires"
      = some (Json.str (toString
          (computedClaimExpires (req.context.getD emptyContext) now 3600))) ∧
    jsonLookup (expectedWireResponse keccak req raw now salt A T).data "amount"
      = some (Json.str (toString req.inputTokenAmount)) ∧
    jsonLookup (expectedWireResponse keccak req raw now salt A T).data "mandate"
      = some (mandateToJson (resolverTemplate (handlerQuoteForConfig req raw) req.sponsor
          { req.context.getD emptyContext with
              fillExpires :=
                some (computedFillExpires (req.context.getD emptyContext) now 3600)
              claimExpires :=
                some (computedClaimExpires (req.context.getD emptyContext) now 3600) }
          T salt)) :=
  ⟨quoteRouteHandler_ok keccak req raw now salt A T n harb hrp0 hrp7 hexp hnet,
   rfl, rfl, rfl, rfl, rfl, rfl⟩

/-- Witness for the amended C4 on the Optimism→Base pair. -/
theorem wireData_amended_witness :
    (arbiterMapping exRequest.inputTokenChainId exRequest.outputTokenChainId =
        some (mkEntry addrOptimism addrBase) ∧
     0 ≤ (exRequest.lockParameters.getD defaultLockParameters).resetPeriod ∧
     (exRequest.lockParameters.getD defaultLockParameters).resetPeriod ≤ 7 ∧
     computedFillExpires (exRequest.context.getD emptyContext) 1700000000 3600 <
       computedClaimExpires (exRequest.context.getD emptyContext) 1700000000 3600 ∧
     jsOr exRaw.quoteOutputAmountNet exRaw.spotOutputAmount =
       some 990000000000000000) ∧
    quoteRouteHandler lengthHash exRequest exRaw 1700000000 exSalt =
      Except.ok (expectedWireResponse lengthHash exRequest exRaw 1700000000 exSalt
        addrOptimism addrBase) ∧
    jsonLookup (expectedWireResponse lengthHash exRequest exRaw 1700000000 exSalt
        addrOptimism addrBase).data "tribunal" = none :=
  ⟨⟨rfl, by decide, by decide, by decide, rfl⟩,
   (wireData_amended lengthHash exRequest exRaw 1700000000 exSalt addrOptimism addrBase
     990000000000000000 rfl (by decide) (by decide) (by decide) rfl).1,
   (wireData_amended lengthHash exRequest exRaw 1700000000 exSalt addrOptimism addrBase
     990000000000000000 rfl (by decide) (by decide) (by decide) rfl).2.1⟩

/-- C8 (corrected) — counterexample to the claim as stated: when both
the spot price and the routed quote are unavailable the endpoint does
not return a success response of echoed inputs and zeros; it throws,
and the route replies HTTP 400 with this message. -/
theorem bothFail_counterexample :
    quoteRouteHandler lengthHash exRequest
      { spotOutputAmount := none, quoteOutputAmountDirect := none,
        quoteOutputAmountNet := none, deltaAmount := none,
        tribunalQuote := none, tribunalQuoteUsd := none } 1700000000 exSalt =
      Except.error "Failed to get output amount from either spot or quote price" := rfl

/-- C8 (corrected, amended): a spot failure alone or a routed-quote
failure alone does not fail the request (the other amount is used);
when both fail, the handler throws
`"Failed to get output amount from either spot or quote price"` and the
endpoint returns an error (HTTP 400), not a success response. -/
theorem partialFailure_amended :
    (∀ (keccak : Hash) (req : RouteRequest) (raw : RawQuoteResult) (now : Nat)
      (salt : String) (A T : String) (n : Nat),
      arbiterMapping req.inputTokenChainId req.outputTokenChainId =
        some (mkEntry A T) →
      0 ≤ (req.lockParameters.getD defaultLockParameters).resetPeriod →
      (req.lockParameters.getD defaultLockParameters).resetPeriod ≤ 7 →
      computedFillExpires (req.context.getD emptyContext) now 3600 <
        computedClaimExpires (req.context.getD emptyContext) now 3600 →
      raw.spotOutputAmount = none → raw.quoteOutputAmountNet = some n →
      (quoteRouteHandler keccak req raw now salt).isOk = true) ∧
    (∀ (keccak : Hash) (req : RouteRequest) (raw : RawQuoteResult) (now : Nat)
      (salt : String) (A T : String) (s : Nat),
      arbiterMapping req.inputTokenChainId req.outputTokenChainId =
        some (mkEntry A T) →
      0 ≤ (req.lockParameters.getD defaultLockParameters).resetPeriod →
      (req.lockParameters.getD defaultLockParameters).resetPeriod ≤ 7 →
      computedFillExpires (req.context.getD emptyContext) now 3600 <
        computedClaimExpires (req.context.getD emptyContext) now 3600 →
      raw.quoteOutputAmountNet = none → raw.spotOutputAmount = some s →
      (quoteRouteHandler keccak req raw now salt).isOk = true) ∧
    (∀ (keccak : Hash) (req : RouteRequest) (raw : RawQuoteResult) (now : Nat)
      (salt : String),
      raw.spotOutputAmount = none → raw.quoteOutputAmountNet = none →
      quoteRouteHandler keccak req raw now salt =
        Except.error "Failed to get output amount from either spot or quote price") := by
  refine ⟨?_, ?_, ?_⟩
  · intro keccak req raw now salt A T n harb hrp0 hrp7 hexp _hspot hqnet
    have hnet : jsOr raw.quoteOutputAmountNet raw.spotOutputAmount = some n := by
      rw [hqnet]
      rfl
    rw [quoteRouteHandler_ok keccak req raw now salt A T n harb hrp0 hrp7 hexp hnet]
    rfl
  · intro keccak req raw now salt A T s harb hrp0 hrp7 hexp hqnet hspot
    have hnet : jsOr raw.quoteOutputAmountNet raw.spotOutputAmount = some s := by
      rw [hqnet, hspot]
      rfl
    rw [quoteRouteHandler_ok keccak req raw now salt A T s harb hrp0 hrp7 hexp hnet]
    rfl
  · intro keccak req raw now salt hspot hqnet
    have hnone : (handlerQuoteForConfig req raw).outputAmountNet = none := by
      simp [handlerQuoteForConfig, jsOr, hspot, hqnet]
    simp [quoteRouteHandler, hnone, except_throw_eq, except_error_bind]

/-- Witness for the amended C8: a spot-only failure and a route-only
failure both succeed on the Optimism→Base pair; the double failure
yields the error. -/
theorem partialFailure_amended_witness :
    (quoteRouteHandler lengthHash exRequest
      { spotOutputAmount := none, quoteOutputAmountDirect := some 1000000000000000000,
        quoteOutputAmountNet := some 990000000000000000, deltaAmount := none,
        tribunalQuote := some 50000000000000000, tribunalQuoteUsd := none }
      1700000000 exSalt).isOk = true ∧
    (quoteRouteHandler lengthHash exRequest
      { spotOutputAmount := some 500000000000000000, quoteOutputAmountDirect := none,
        quoteOutputAmountNet := none, deltaAmount := none,
        tribunalQuote := none, tribunalQuoteUsd := none }
      1700000000 exSalt).isOk = true ∧
    quoteRouteHandler lengthHash exRequest
      { spotOutputAmount := none, quoteOutputAmountDirect := none,
        quoteOutputAmountNet := none, deltaAmount := none,
        tribunalQuote := none, tribunalQuoteUsd := none } 1700000000 exSalt =
      Except.error "Failed to get output amount from either spot or quote price" :=
  ⟨partialFailure_amended.1 lengthHash exRequest
     { spotOutputAmount := none, quoteOutputAmountDirect := some 1000000000000000000,
       quoteOutputAmountNet := some 990000000000000000, deltaAmount := none,
       tribunalQuote := some 50000000000000000, tribunalQuoteUsd := none }
     1700000000 exSalt addrOptimism addrBase 990000000000000000 rfl (by decide)
     (by decide) (by decide) rfl rfl,
   partialFailure_amended.2.1 lengthHash exRequest
     { spotOutputAmount := some 500000000000000000, quoteOutputAmountDirect := none,
       quoteOutputAmountNet := none, deltaAmount := none,
       tribunalQuote := none, tribunalQuoteUsd := none }
     1700000000 exSalt addrOptimism addrBase 500000000000000000 rfl (by decide)
     (by decide) (by decide) rfl rfl,
   partialFailure_amended.2.2 lengthHash exRequest
     { spotOutputAmount := none, quoteOutputAmountDirect := none,
       quoteOutputAmountNet := none, deltaAmount := none,
       tribunalQuote := none, tribunalQuoteUsd := none } 1700000000 exSalt rfl rfl⟩

/-- C1 (confirmed): for every hash function and every mandate witness,
the hash computed by `generateWitnessHash` from the registry's parsed
Mandate type string equals the hash computed by `deriveMandateHash`
from the hard-coded Mandate type, for the same chainId, tribunal and
mandate field values. -/
theorem generateWitnessHash_eq_deriveMandateHash (keccak : Hash) (w : WitnessData) :
    generateWitnessHash keccak registryWitnessTypeString.data (witnessDict w) =
      Except.ok (deriveMandateHash keccak w.chainId w.tribunal
        ⟨w.recipient, w.expires, w.token, w.minimumAmount,
         w.baselinePriorityFee, w.scalingFactor, w.salt⟩) := by
  rfl

end Calibrator
